import Mathlib

/-!
Shallow embedding of src/currency_converter.py (lyssadev/currency-converter).

JSON file contents are modelled by the inductive `Json`; a persisted file is a
`TextFile`, which is either absent, present but not parseable as JSON
(`corrupt`), or present with a parsed JSON value (`contents`).  Python
exceptions raised by the JSON/file layer are the `PyErr` values; functions
that can raise return `Except PyErr _`.  Numbers are modelled as rationals.
-/

set_option maxHeartbeats 1000000

namespace CurrencyConv

/-- A JSON value, as produced by json.load. Numbers are modelled as ℚ. -/
inductive Json where
  | null : Json
  | bool (b : Bool) : Json
  | num (q : ℚ) : Json
  | str (s : String) : Json
  | arr (elems : List Json) : Json
  | obj (fields : List (String × Json)) : Json

/-- Python exceptions that the modelled code can raise. -/
inductive PyErr where
  | jsonDecodeError : PyErr
  | typeError : PyErr
  | attributeError : PyErr
  | keyError : PyErr
deriving DecidableEq

instance {ε α : Type} [DecidableEq ε] [DecidableEq α] : DecidableEq (Except ε α) := fun a b =>
  match a, b with
  | .error e, .error f =>
    match decEq e f with
    | isTrue h => isTrue (by rw [h])
    | isFalse h => isFalse (fun hh => h (by injection hh))
  | .ok x, .ok y =>
    match decEq x y with
    | isTrue h => isTrue (by rw [h])
    | isFalse h => isFalse (fun hh => h (by injection hh))
  | .error _, .ok _ => isFalse (fun hh => nomatch hh)
  | .ok _, .error _ => isFalse (fun hh => nomatch hh)

/-- State of one of the persisted JSON files. -/
inductive TextFile where
  | absent : TextFile
  | corrupt : TextFile
  | contents (j : Json) : TextFile

/-- Key lookup in a JSON object (Python dict lookup), first binding wins. -/
def lookupField : List (String × Json) → String → Option Json
  | [], _ => none
  | (k, v) :: rest, key => if k == key then some v else lookupField rest key

/-- Python dict assignment d[key] = v: replace the value in place if the key
is present (keeping the stored key and its position), else append at the end. -/
def dictInsert : List (String × Json) → String → Json → List (String × Json)
  | [], key, v => [(key, v)]
  | (k, w) :: rest, key, v =>
    if k == key then (k, v) :: rest
    else (k, w) :: dictInsert rest key v

/-- Python truthiness of a JSON value (bool(x)). -/
def jsonTruthy : Json → Bool
  | .null => false
  | .bool b => b
  | .num q => q != 0
  | .str s => s != ""
  | .arr elems => !elems.isEmpty
  | .obj fields => !fields.isEmpty

/-- Python truthiness of an optional JSON value (None is falsy). -/
def optionTruthy : Option Json → Bool
  | none => false
  | some j => jsonTruthy j

/-- Python d.get(key): None when absent; AttributeError when d is not a dict. -/
def pyDictGet : Json → String → Except PyErr (Option Json)
  | .obj fields, key => .ok (lookupField fields key)
  | _, _ => .error .attributeError

/-- Python d[key]: KeyError when absent; TypeError when d is not a dict. -/
def pyGetItem : Json → String → Except PyErr Json
  | .obj fields, key =>
    match lookupField fields key with
    | some v => .ok v
    | none => .error .keyError
  | _, _ => .error .typeError

/-- Python "key in d" for a string key: key test on a dict, element test on a
list, substring test on a string, TypeError otherwise. -/
def pyContains (key : String) : Json → Except PyErr Bool
  | .obj fields => .ok (fields.any (fun p => p.1 == key))
  | .arr elems => .ok (elems.any (fun j => match j with | .str s => s == key | _ => false))
  | .str s => .ok (!((s.splitOn key).length == 1))
  | _ => .error .typeError

/-- Python d[key] = v on a JSON value: only dicts support item assignment. -/
def pySetItem : Json → String → Json → Except PyErr Json
  | .obj fields, key, v => .ok (.obj (dictInsert fields key v))
  | _, _, _ => .error .typeError

/-- CurrencyConverter.load_cached_rates (lines 41-47): json.load of the cache
file; only FileNotFoundError is caught (returning the empty dict), so a
corrupt file raises json.JSONDecodeError to the caller. -/
def load_cached_rates : TextFile → Except PyErr Json
  | .absent => .ok (.obj [])
  | .corrupt => .error .jsonDecodeError
  | .contents j => .ok j

/-- CurrencyConverter.save_cached_rates (lines 49-52): json.dump of the full
mapping, overwriting the file. -/
def save_cached_rates (rates : Json) : TextFile :=
  .contents rates

/-- The cache-update step of convert (lines 139-141): load the cached rates,
assign rates[key] = rate, save the mapping back. -/
def putRate (cacheFile : TextFile) (key : String) (rate : ℚ) : Except PyErr TextFile :=
  match load_cached_rates cacheFile with
  | .error e => .error e
  | .ok rates =>
    match pySetItem rates key (.num rate) with
    | .error e => .error e
    | .ok rates2 => .ok (save_cached_rates rates2)

/-- Performing the put of (key, rate) twice in succession (the second put runs
on the cache file the first one persisted). -/
def putRateTwice (cacheFile : TextFile) (key : String) (rate : ℚ) : Except PyErr TextFile :=
  match putRate cacheFile key rate with
  | .error e => .error e
  | .ok f2 => putRate f2 key rate

/-- One conversion record as written by save_to_history. -/
structure HistoryRecord where
  timestamp : String
  from_amount : ℚ
  from_currency : String
  to_currency : String
  result : ℚ
deriving DecidableEq

/-- The JSON object save_to_history appends (lines 62-68). -/
def recToJson (r : HistoryRecord) : Json :=
  .obj [("timestamp", .str r.timestamp), ("from_amount", .num r.from_amount),
        ("from_currency", .str r.from_currency), ("to_currency", .str r.to_currency),
        ("result", .num r.result)]

/-- Reading one history entry back: the field accesses entry[...] performed by
show_history (lines 88-94), typed as the record they are used at. -/
def recFromJson : Json → Option HistoryRecord
  | .obj fields =>
    match lookupField fields "timestamp", lookupField fields "from_amount",
          lookupField fields "from_currency", lookupField fields "to_currency",
          lookupField fields "result" with
    | some (.str ts), some (.num fa), some (.str fc), some (.str tc), some (.num res) =>
      some ⟨ts, fa, fc, tc, res⟩
    | _, _, _, _, _ => none
  | _ => none

/-- CurrencyConverter.save_to_history (lines 54-71): load the existing history
(empty list when the file is absent; JSONDecodeError propagates when corrupt),
append one record, dump the whole list back. -/
def save_to_history (historyFile : TextFile) (now : String) (amount : ℚ)
    (from_currency to_currency : String) (result : ℚ) : Except PyErr TextFile :=
  match (match historyFile with
         | .absent => Except.ok (Json.arr [])
         | .corrupt => Except.error PyErr.jsonDecodeError
         | .contents j => Except.ok j) with
  | .error e => .error e
  | .ok history =>
    match history with
    | .arr entries =>
      .ok (.contents (.arr (entries ++ [recToJson ⟨now, amount, from_currency, to_currency, result⟩])))
    | _ => .error .attributeError

/-- Reading each entry of the loaded history in order, as show_history's loop
does; the first entry with a missing or ill-typed field raises. -/
def decodeEntries : List Json → Option (List HistoryRecord)
  | [] => some []
  | e :: rest =>
    match recFromJson e with
    | none => none
    | some r =>
      match decodeEntries rest with
      | none => none
      | some rs => some (r :: rs)

/-- The load-and-parse portion of CurrencyConverter.show_history (lines 73-94):
none models the "No conversion history found" message for an absent file; a
corrupt file raises JSONDecodeError; entries are read back as records. -/
def show_history_records : TextFile → Except PyErr (Option (List HistoryRecord))
  | .absent => .ok none
  | .corrupt => .error .jsonDecodeError
  | .contents j =>
    match j with
    | .arr entries =>
      match decodeEntries entries with
      | some recs => .ok (some recs)
      | none => .error .keyError
    | _ => .error .typeError

/-- The history file holding exactly the given records, as json.dump writes it. -/
def historyFileFor (recs : List HistoryRecord) : TextFile :=
  .contents (.arr (recs.map recToJson))

/-- save_to_history applied to one record's fields. -/
def save_record (f : TextFile) (r : HistoryRecord) : Except PyErr TextFile :=
  save_to_history f r.timestamp r.from_amount r.from_currency r.to_currency r.result

/-- Saving a sequence of records by repeated save_to_history calls. -/
def saveAll (start : TextFile) : List HistoryRecord → Except PyErr TextFile
  | [] => .ok start
  | r :: rest =>
    match save_record start r with
    | .error e => .error e
    | .ok f2 => saveAll f2 rest

/-- Python str.upper() on one character, for the ASCII letters the CLI sees. -/
def pyCharUpper (c : Char) : Char :=
  if 97 ≤ c.toNat ∧ c.toNat ≤ 122 then Char.ofNat (c.toNat - 32) else c

/-- Python str.upper() (line 186-187 applies it to both currency arguments). -/
def pyUpper (s : String) : String :=
  String.mk (s.data.map pyCharUpper)

/-- The compiled-in registry CURRENCY_CODES (lines 17-32), in source order. -/
def CURRENCY_CODES : List (String × String) :=
  [("USD", "US Dollar"), ("EUR", "Euro"), ("GBP", "British Pound"), ("JPY", "Japanese Yen"),
   ("AUD", "Australian Dollar"), ("CAD", "Canadian Dollar"), ("CHF", "Swiss Franc"),
   ("CNY", "Chinese Yuan"), ("NZD", "New Zealand Dollar"), ("SEK", "Swedish Krona"),
   ("KRW", "South Korean Won"), ("SGD", "Singapore Dollar"), ("NOK", "Norwegian Krone"),
   ("MXN", "Mexican Peso"), ("INR", "Indian Rupee"), ("RUB", "Russian Ruble"),
   ("ZAR", "South African Rand"), ("TRY", "Turkish Lira"), ("BRL", "Brazilian Real"),
   ("TWD", "Taiwan Dollar"), ("DKK", "Danish Krone"), ("PLN", "Polish Zloty"),
   ("THB", "Thai Baht"), ("IDR", "Indonesian Rupiah"), ("HUF", "Hungarian Forint"),
   ("CZK", "Czech Koruna"), ("ILS", "Israeli Shekel"), ("CLP", "Chilean Peso"),
   ("PHP", "Philippine Peso"), ("AED", "UAE Dirham"), ("COP", "Colombian Peso"),
   ("SAR", "Saudi Riyal"), ("MYR", "Malaysian Ringgit"), ("RON", "Romanian Leu"),
   ("DOP", "Dominican Peso"), ("BGN", "Bulgarian Lev"), ("HKD", "Hong Kong Dollar"),
   ("HRK", "Croatian Kuna"), ("PKR", "Pakistani Rupee"), ("EGP", "Egyptian Pound"),
   ("ISK", "Icelandic Króna"), ("VND", "Vietnamese Dong"), ("NGN", "Nigerian Naira")]

/-- Membership test "code in CURRENCY_CODES" (dict key test, lines 190/193). -/
def isSupported (code : String) : Bool :=
  CURRENCY_CODES.any (fun p => p.1 == code)

/-- The f-string key f"{from_currency}_{to_currency}" (lines 117/140). -/
def pairKey (from_currency to_currency : String) : String :=
  from_currency ++ "_" ++ to_currency

/-- Outcome of requests.get on the rate endpoint: a transport-level
RequestException, a response whose body is not JSON, or a response with a
status code and parsed JSON body. -/
inductive ProviderResponse where
  | requestException : ProviderResponse
  | badJsonBody (status : Nat) : ProviderResponse
  | response (status : Nat) (body : Json) : ProviderResponse

/-- The error conditions on which CurrencyConverter.convert calls sys.exit(1),
each after printing the corresponding message. -/
inductive ConvertError where
  | noCachedRates : ConvertError
  | noCachedRate (from_currency to_currency : String) : ConvertError
  | fetchFailed : ConvertError
  | invalidResponse : ConvertError
  | rateUnavailable (from_currency to_currency : String) : ConvertError
  | connectionError : ConvertError
  | pyException (e : PyErr) : ConvertError
deriving DecidableEq

/-- Result of one CurrencyConverter.convert call: the returned product or the
exit-causing error, the cache file afterwards, and whether the call issued a
network request or touched the cache file. -/
structure ConvertOutcome where
  result : Except ConvertError ℚ
  cacheAfter : TextFile
  networkCalled : Bool
  cacheTouched : Bool

namespace CurrencyConverter

/-- CurrencyConverter.convert (lines 109-149).  Offline: load the cache (a
corrupt file raises into the generic handler), fail when the cache is falsy,
look the pair key up with .get and fail when the value is falsy, else multiply.
Online: requests.get, check the status, check "rates" in the body, .get the
target code (None fails), merge the rate into the cache, then multiply. -/
def convert (provider : String → ProviderResponse) (cacheFile : TextFile)
    (amount : ℚ) (from_currency to_currency : String) (offline : Bool) : ConvertOutcome :=
  if offline then
    match load_cached_rates cacheFile with
    | .error e => ⟨.error (.pyException e), cacheFile, false, true⟩
    | .ok rates =>
      if jsonTruthy rates = false then
        ⟨.error .noCachedRates, cacheFile, false, true⟩
      else
        match pyDictGet rates (pairKey from_currency to_currency) with
        | .error e => ⟨.error (.pyException e), cacheFile, false, true⟩
        | .ok rateOpt =>
          if optionTruthy rateOpt = false then
            ⟨.error (.noCachedRate from_currency to_currency), cacheFile, false, true⟩
          else
            match rateOpt with
            | some (.num r) => ⟨.ok (amount * r), cacheFile, false, true⟩
            | some (.bool _) => ⟨.ok (amount * 1), cacheFile, false, true⟩
            | _ => ⟨.error (.pyException .typeError), cacheFile, false, true⟩
  else
    match provider from_currency with
    | .requestException => ⟨.error .connectionError, cacheFile, true, false⟩
    | .badJsonBody status =>
      if status != 200 then ⟨.error .fetchFailed, cacheFile, true, false⟩
      else ⟨.error (.pyException .jsonDecodeError), cacheFile, true, false⟩
    | .response status data =>
      if status != 200 then ⟨.error .fetchFailed, cacheFile, true, false⟩
      else
        match pyContains "rates" data with
        | .error e => ⟨.error (.pyException e), cacheFile, true, false⟩
        | .ok false => ⟨.error .invalidResponse, cacheFile, true, false⟩
        | .ok true =>
          match pyGetItem data "rates" with
          | .error e => ⟨.error (.pyException e), cacheFile, true, false⟩
          | .ok ratesTable =>
            match pyDictGet ratesTable to_currency with
            | .error e => ⟨.error (.pyException e), cacheFile, true, false⟩
            | .ok none => ⟨.error (.rateUnavailable from_currency to_currency), cacheFile, true, false⟩
            | .ok (some .null) => ⟨.error (.rateUnavailable from_currency to_currency), cacheFile, true, false⟩
            | .ok (some rateJson) =>
              match load_cached_rates cacheFile with
              | .error e => ⟨.error (.pyException e), cacheFile, true, true⟩
              | .ok rates =>
                match pySetItem rates (pairKey from_currency to_currency) rateJson with
                | .error e => ⟨.error (.pyException e), cacheFile, true, true⟩
                | .ok rates2 =>
                  match rateJson with
                  | .num r => ⟨.ok (amount * r), save_cached_rates rates2, true, true⟩
                  | .bool b => ⟨.ok (amount * (if b then 1 else 0)), save_cached_rates rates2, true, true⟩
                  | _ => ⟨.error (.pyException .typeError), save_cached_rates rates2, true, true⟩

end CurrencyConverter

/-- Round a rational to the nearest integer, ties to even (the rounding used
by Python's fixed-point float formatting). -/
def roundHalfEven (q : ℚ) : ℤ :=
  let fl := ⌊q⌋
  let frac := q - fl
  if frac < 1/2 then fl
  else if 1/2 < frac then fl + 1
  else if fl % 2 = 0 then fl else fl + 1

/-- Two-digit rendering of the cents part. -/
def twoDigits (n : Nat) : String :=
  if n < 10 then "0" ++ toString n else toString n

/-- Comma grouping of a reversed digit list, three digits at a time. -/
def groupRev : List Char → List Char
  | d1 :: d2 :: d3 :: d4 :: rest => d1 :: d2 :: d3 :: ',' :: groupRev (d4 :: rest)
  | l => l

/-- The Python format spec used by display_result, f"{x:,.2f}": fixed-point
with two decimals and thousands separators. -/
def commaFixed2 (q : ℚ) : String :=
  let cents := roundHalfEven (q * 100)
  let sign := if cents < 0 then "-" else ""
  let a := cents.natAbs
  let intPart := a / 100
  let fracPart := a % 100
  let grouped := String.mk ((groupRev (toString intPart).data.reverse).reverse)
  sign ++ grouped ++ "." ++ twoDigits fracPart

/-- The row of formatted cells built by display_result (lines 151-167). -/
structure DisplayRow where
  amountStr : String
  fromCode : String
  arrow : String
  resultStr : String
  toCode : String
deriving DecidableEq

/-- display_result (lines 151-167): format amount and result with ",.2f". -/
def display_result (amount : ℚ) (from_currency to_currency : String) (result : ℚ) : DisplayRow :=
  ⟨commaFixed2 amount, from_currency, "→", commaFixed2 result, to_currency⟩

/-- The two persisted files as the CLI command sees them. -/
structure WorldState where
  cache : TextFile
  history : TextFile

/-- The failures on which the convert CLI command exits with status 1. -/
inductive CliError where
  | unsupportedCurrency (code : String) : CliError
  | convertFailed (e : ConvertError) : CliError
  | saveFailed (e : PyErr) : CliError
deriving DecidableEq

/-- One run of the convert CLI command: the printed panel row or the error,
the files afterwards, and which effects happened on the way. -/
structure CliRun where
  outcome : Except CliError DisplayRow
  world : WorldState
  networkCalled : Bool
  cacheTouched : Bool
  historyTouched : Bool

/-- Process exit status of a run (sys.exit(1) on every error path). -/
def CliRun.exitCode (r : CliRun) : Nat :=
  match r.outcome with
  | .error _ => 1
  | .ok _ => 0

/-- The convert CLI command (lines 174-210): uppercase both codes, validate
them against CURRENCY_CODES, run CurrencyConverter.convert, display the
result, and append to history when --save was given. -/
def convertCommand (provider : String → ProviderResponse) (now : String) (w : WorldState)
    (amount : ℚ) (from_currency to_currency : String) (save offline : Bool) : CliRun :=
  let f := pyUpper from_currency
  let t := pyUpper to_currency
  if isSupported f = false then
    ⟨.error (.unsupportedCurrency f), w, false, false, false⟩
  else if isSupported t = false then
    ⟨.error (.unsupportedCurrency t), w, false, false, false⟩
  else
    let out := CurrencyConverter.convert provider w.cache amount f t offline
    match out.result with
    | .error e =>
      ⟨.error (.convertFailed e), ⟨out.cacheAfter, w.history⟩,
       out.networkCalled, out.cacheTouched, false⟩
    | .ok result =>
      let row := display_result amount f t result
      if save then
        match save_to_history w.history now amount f t result with
        | .error e =>
          ⟨.error (.saveFailed e), ⟨out.cacheAfter, w.history⟩,
           out.networkCalled, out.cacheTouched, true⟩
        | .ok h2 =>
          ⟨.ok row, ⟨out.cacheAfter, h2⟩, out.networkCalled, out.cacheTouched, true⟩
      else
        ⟨.ok row, ⟨out.cacheAfter, w.history⟩, out.networkCalled, out.cacheTouched, false⟩

/-! Helper lemmas. -/

theorem char_toNat_ofNat_valid (n : Nat) (h : n < 55296) : (Char.ofNat n).toNat = n := by
  have hv : n.isValidChar := Or.inl h
  rw [Char.ofNat, dif_pos hv]
  rfl

theorem pyCharUpper_eq_of_not_lower (c : Char) (h : ¬ (97 ≤ c.toNat ∧ c.toNat ≤ 122)) :
    pyCharUpper c = c := by
  simp only [pyCharUpper, if_neg h]

theorem pyCharUpper_idem (c : Char) : pyCharUpper (pyCharUpper c) = pyCharUpper c := by
  by_cases h : 97 ≤ c.toNat ∧ c.toNat ≤ 122
  · have h1 : (pyCharUpper c).toNat = c.toNat - 32 := by
      simp only [pyCharUpper, if_pos h]
      exact char_toNat_ofNat_valid _ (by omega)
    exact pyCharUpper_eq_of_not_lower _ (by omega)
  · rw [pyCharUpper_eq_of_not_lower c h]
    exact pyCharUpper_eq_of_not_lower c h

theorem pyUpper_idem (s : String) : pyUpper (pyUpper s) = pyUpper s := by
  show String.mk ((s.data.map pyCharUpper).map pyCharUpper) = String.mk (s.data.map pyCharUpper)
  rw [List.map_map]
  exact congrArg String.mk (List.map_congr_left (fun a _ => pyCharUpper_idem a))

theorem roundHalfEven_intCast (n : ℤ) : roundHalfEven ((n : ℚ)) = n := by
  norm_num [roundHalfEven, Int.floor_intCast]

theorem lookupField_dictInsert_self (fields : List (String × Json)) (k : String) (v : Json) :
    lookupField (dictInsert fields k v) k = some v := by
  induction fields with
  | nil => simp [dictInsert, lookupField]
  | cons p rest ih =>
    obtain ⟨pk, pv⟩ := p
    cases h : (pk == k) with
    | true => simp [dictInsert, h, lookupField]
    | false => simp [dictInsert, h, lookupField, ih]

theorem dictInsert_idem (fields : List (String × Json)) (k : String) (v : Json) :
    dictInsert (dictInsert fields k v) k v = dictInsert fields k v := by
  induction fields with
  | nil => simp [dictInsert]
  | cons p rest ih =>
    obtain ⟨pk, pv⟩ := p
    cases h : (pk == k) with
    | true => simp [dictInsert, h]
    | false => simp [dictInsert, h, ih]

theorem any_of_lookupField {fields : List (String × Json)} {key : String} {v : Json}
    (h : lookupField fields key = some v) : fields.any (fun p => p.1 == key) = true := by
  induction fields with
  | nil => simp [lookupField] at h
  | cons p rest ih =>
    obtain ⟨pk, pv⟩ := p
    cases hk : (pk == key) with
    | true => simp [hk]
    | false =>
      simp only [lookupField, hk, Bool.false_eq_true, if_false] at h
      simp [hk, ih h]

theorem recFromJson_recToJson (r : HistoryRecord) : recFromJson (recToJson r) = some r := by
  rfl

theorem decodeEntries_map_recToJson (recs : List HistoryRecord) :
    decodeEntries (recs.map recToJson) = some recs := by
  induction recs with
  | nil => rfl
  | cons r rest ih =>
    simp [decodeEntries, recFromJson_recToJson, ih]

theorem save_record_arr (acc : List HistoryRecord) (r : HistoryRecord) :
    save_record (TextFile.contents (Json.arr (acc.map recToJson))) r =
      Except.ok (TextFile.contents (Json.arr ((acc ++ [r]).map recToJson))) := by
  simp [save_record, save_to_history, List.map_append]

theorem saveAll_from_arr (recs : List HistoryRecord) :
    ∀ acc : List HistoryRecord,
      saveAll (TextFile.contents (Json.arr (acc.map recToJson))) recs =
        Except.ok (TextFile.contents (Json.arr ((acc ++ recs).map recToJson))) := by
  induction recs with
  | nil => intro acc; simp [saveAll]
  | cons r rest ih =>
    intro acc
    simp only [saveAll, save_record_arr acc r, ih (acc ++ [r]), List.append_assoc,
      List.singleton_append]

/-! Claim theorems. -/

/-- C6: writing a rate into the cache is idempotent: for every starting cache
file state, pair key and rate, performing the load-merge-persist put of
(key, rate) twice in succession leaves the persisted cache mapping identical
to performing it once. -/
theorem C6_putRate_idempotent (cacheFile : TextFile) (key : String) (rate : ℚ) :
    putRateTwice cacheFile key rate = putRate cacheFile key rate := by
  cases cacheFile with
  | absent =>
    simp [putRateTwice, putRate, load_cached_rates, pySetItem, save_cached_rates, dictInsert]
  | corrupt => rfl
  | contents j =>
    cases j with
    | obj fields =>
      simp [putRateTwice, putRate, load_cached_rates, pySetItem, save_cached_rates,
        dictInsert_idem]
    | null => rfl
    | bool b => rfl
    | num q => rfl
    | str s => rfl
    | arr elems => rfl

/-- C7: history persistence round-trips: for every sequence of history
records, persisting the sequence to the history file (also by repeated
save_to_history appends starting from an empty history) and then loading it
back with show_history's loader returns the same sequence in the same order. -/
theorem C7_history_roundtrip (recs : List HistoryRecord) :
    show_history_records (historyFileFor recs) = Except.ok (some recs) ∧
    saveAll (TextFile.contents (Json.arr [])) recs = Except.ok (historyFileFor recs) := by
  constructor
  · simp [show_history_records, historyFileFor, decodeEntries_map_recToJson]
  · have h := saveAll_from_arr recs []
    simpa [historyFileFor] using h

/-- C8: the history store is append-only: save_to_history loads the existing
sequence (empty when the file is absent), appends exactly one record at the
end, and persists the whole sequence back, so every previously stored entry
is preserved unchanged in its original position. -/
theorem C8_append_only (entries : List Json) (now : String) (amount : ℚ)
    (from_currency to_currency : String) (result : ℚ) :
    save_to_history (TextFile.contents (Json.arr entries)) now amount from_currency to_currency result =
      Except.ok (TextFile.contents (Json.arr
        (entries ++ [recToJson ⟨now, amount, from_currency, to_currency, result⟩]))) ∧
    save_to_history TextFile.absent now amount from_currency to_currency result =
      Except.ok (TextFile.contents (Json.arr
        [recToJson ⟨now, amount, from_currency, to_currency, result⟩])) ∧
    (entries ++ [recToJson ⟨now, amount, from_currency, to_currency, result⟩]).take entries.length
      = entries ∧
    (entries ++ [recToJson ⟨now, amount, from_currency, to_currency, result⟩]).length
      = entries.length + 1 := by
  refine ⟨rfl, rfl, ?_, by simp⟩
  exact List.take_left entries _

/-- C1 counterexample: on a corrupt (non-JSON) cache file, load_cached_rates
does not return an empty mapping; it raises json.JSONDecodeError, because only
FileNotFoundError is caught. -/
theorem C1_corrupt_cache_counterexample :
    load_cached_rates TextFile.corrupt = Except.error PyErr.jsonDecodeError ∧
    ¬ ∃ j, load_cached_rates TextFile.corrupt = Except.ok j := by
  refine ⟨rfl, ?_⟩
  rintro ⟨j, hj⟩
  simp [load_cached_rates] at hj

/-- C1 (amended): loading the cached rates returns an empty mapping when the
backing file is absent and the parsed contents otherwise, but any other read
or parse failure (a corrupt, non-JSON cache file) raises out of
load_cached_rates; inside convert that exception reaches the generic handler,
which prints the error and exits non-zero. -/
theorem C1_load_fails_open_only_for_absent :
    load_cached_rates TextFile.absent = Except.ok (Json.obj []) ∧
    (∀ j, load_cached_rates (TextFile.contents j) = Except.ok j) ∧
    load_cached_rates TextFile.corrupt = Except.error PyErr.jsonDecodeError ∧
    (∀ (provider : String → ProviderResponse) (amount : ℚ) (f t : String),
      (CurrencyConverter.convert provider TextFile.corrupt amount f t true).result =
        Except.error (ConvertError.pyException PyErr.jsonDecodeError)) := by
  exact ⟨rfl, fun j => rfl, rfl, fun provider amount f t => rfl⟩

/-- C2: for supported codes and a positive amount, an online-mode conversion
whose provider response has status 200 and a rates table giving rate r for the
target code returns exactly amount * r, and before returning persists the
cache with r merged in under the key "FROM_TO". -/
theorem C2_online_conversion (provider : String → ProviderResponse)
    (cacheFile : TextFile) (amount r : ℚ) (from_currency to_currency : String)
    (bodyFields ratesFields cacheFields : List (String × Json))
    (_hpos : 0 < amount)
    (_hf : isSupported from_currency = true) (_ht : isSupported to_currency = true)
    (hprov : provider from_currency = ProviderResponse.response 200 (Json.obj bodyFields))
    (hrates : lookupField bodyFields "rates" = some (Json.obj ratesFields))
    (hrate : lookupField ratesFields to_currency = some (Json.num r))
    (hcache : load_cached_rates cacheFile = Except.ok (Json.obj cacheFields)) :
    CurrencyConverter.convert provider cacheFile amount from_currency to_currency false =
      ⟨Except.ok (amount * r),
       TextFile.contents (Json.obj
         (dictInsert cacheFields (pairKey from_currency to_currency) (Json.num r))),
       true, true⟩ ∧
    lookupField (dictInsert cacheFields (pairKey from_currency to_currency) (Json.num r))
      (pairKey from_currency to_currency) = some (Json.num r) := by
  refine ⟨?_, lookupField_dictInsert_self cacheFields _ _⟩
  have hany := any_of_lookupField hrates
  simp [CurrencyConverter.convert, hprov, hcache, pyContains, pyGetItem, pyDictGet,
    pySetItem, hrates, hrate, hany, save_cached_rates]

/-- The provider used by the concrete scenarios: status 200 with a rates table
mapping EUR to 0.92. -/
def usdEurProvider : String → ProviderResponse := fun _ =>
  .response 200 (.obj [("rates", .obj [("EUR", .num (23/25))])])

/-- C2 witness at amount 100, USD to EUR, rate 0.92, empty cache. -/
theorem C2_online_conversion_witness :
    (0 : ℚ) < 100 ∧ isSupported "USD" = true ∧ isSupported "EUR" = true ∧
    CurrencyConverter.convert usdEurProvider TextFile.absent 100 "USD" "EUR" false =
      ⟨Except.ok (100 * (23/25)),
       TextFile.contents (Json.obj (dictInsert [] (pairKey "USD" "EUR") (Json.num (23/25)))),
       true, true⟩ :=
  ⟨by norm_num, by decide, by decide,
   (C2_online_conversion usdEurProvider TextFile.absent 100 (23/25) "USD" "EUR"
     [("rates", Json.obj [("EUR", Json.num (23/25))])] [("EUR", Json.num (23/25))] []
     (by norm_num) (by decide) (by decide) rfl rfl rfl rfl).1⟩

/-- C3: for every amount and supported pair of codes, an offline-mode
conversion on an empty rate cache store (absent file or empty mapping) fails
with the no-cached-rates condition, exits with status 1, and never issues a
network request. -/
theorem C3_offline_empty_cache (provider : String → ProviderResponse) (now : String)
    (w : WorldState) (amount : ℚ) (from_currency to_currency : String) (save : Bool)
    (hf : isSupported (pyUpper from_currency) = true)
    (ht : isSupported (pyUpper to_currency) = true)
    (hempty : w.cache = TextFile.absent ∨ w.cache = TextFile.contents (Json.obj [])) :
    (convertCommand provider now w amount from_currency to_currency save true).outcome =
      Except.error (CliError.convertFailed ConvertError.noCachedRates) ∧
    (convertCommand provider now w amount from_currency to_currency save true).exitCode = 1 ∧
    (convertCommand provider now w amount from_currency to_currency save true).networkCalled
      = false := by
  have hconv : CurrencyConverter.convert provider w.cache amount (pyUpper from_currency)
      (pyUpper to_currency) true =
      ⟨.error .noCachedRates, w.cache, false, true⟩ := by
    rcases hempty with h | h <;> rw [h] <;>
      simp [CurrencyConverter.convert, load_cached_rates, jsonTruthy]
  simp [convertCommand, hf, ht, hconv, CliRun.exitCode]

/-- C3 witness: USD to EUR offline with both files absent. -/
theorem C3_offline_empty_cache_witness :
    isSupported (pyUpper "USD") = true ∧ isSupported (pyUpper "EUR") = true ∧
    ((convertCommand (fun _ => ProviderResponse.requestException) ""
        ⟨TextFile.absent, TextFile.absent⟩ 1 "USD" "EUR" false true).outcome =
      Except.error (CliError.convertFailed ConvertError.noCachedRates) ∧
    (convertCommand (fun _ => ProviderResponse.requestException) ""
        ⟨TextFile.absent, TextFile.absent⟩ 1 "USD" "EUR" false true).exitCode = 1 ∧
    (convertCommand (fun _ => ProviderResponse.requestException) ""
        ⟨TextFile.absent, TextFile.absent⟩ 1 "USD" "EUR" false true).networkCalled = false) :=
  ⟨by decide, by decide,
   C3_offline_empty_cache (fun _ => ProviderResponse.requestException) ""
     ⟨TextFile.absent, TextFile.absent⟩ 1 "USD" "EUR" false (by decide) (by decide)
     (Or.inl rfl)⟩

/-- C4: when the uppercased --from or --to code is not in the registry, the
convert command exits with status 1 before any network request and before any
read or write of the cache or history files, and this applies to both
arguments. -/
theorem C4_unsupported_rejected (provider : String → ProviderResponse) (now : String)
    (w : WorldState) (amount : ℚ) (from_currency to_currency : String) (save offline : Bool)
    (h : isSupported (pyUpper from_currency) = false ∨
         isSupported (pyUpper to_currency) = false) :
    (convertCommand provider now w amount from_currency to_currency save offline).exitCode = 1 ∧
    (convertCommand provider now w amount from_currency to_currency save offline).networkCalled
      = false ∧
    (convertCommand provider now w amount from_currency to_currency save offline).cacheTouched
      = false ∧
    (convertCommand provider now w amount from_currency to_currency save offline).historyTouched
      = false ∧
    (convertCommand provider now w amount from_currency to_currency save offline).world = w ∧
    ((convertCommand provider now w amount from_currency to_currency save offline).outcome =
        Except.error (CliError.unsupportedCurrency (pyUpper from_currency)) ∨
     (convertCommand provider now w amount from_currency to_currency save offline).outcome =
        Except.error (CliError.unsupportedCurrency (pyUpper to_currency))) := by
  by_cases hf : isSupported (pyUpper from_currency) = false
  · simp [convertCommand, hf, CliRun.exitCode]
  · have hf2 : isSupported (pyUpper from_currency) = true := by
      cases hb : isSupported (pyUpper from_currency) with
      | true => rfl
      | false => exact absurd hb hf
    have ht : isSupported (pyUpper to_currency) = false := h.resolve_left hf
    simp [convertCommand, hf2, ht, CliRun.exitCode]

/-- C4 witness: the unsupported code ZZZ as --from. -/
theorem C4_unsupported_rejected_witness :
    isSupported (pyUpper "ZZZ") = false ∧
    (convertCommand (fun _ => ProviderResponse.requestException) ""
      ⟨TextFile.absent, TextFile.absent⟩ 1 "ZZZ" "EUR" false false).exitCode = 1 ∧
    (convertCommand (fun _ => ProviderResponse.requestException) ""
      ⟨TextFile.absent, TextFile.absent⟩ 1 "ZZZ" "EUR" false false).networkCalled = false :=
  ⟨by decide,
   (C4_unsupported_rejected (fun _ => ProviderResponse.requestException) ""
     ⟨TextFile.absent, TextFile.absent⟩ 1 "ZZZ" "EUR" false false (Or.inl (by decide))).1,
   (C4_unsupported_rejected (fun _ => ProviderResponse.requestException) ""
     ⟨TextFile.absent, TextFile.absent⟩ 1 "ZZZ" "EUR" false false (Or.inl (by decide))).2.1⟩

/-- The run of the concrete scenario of C5: amount 100, USD to EUR, provider
rate 0.92, --save given, both files initially absent. -/
def c5Run : CliRun :=
  convertCommand usdEurProvider "2025-01-01T00:00:00" ⟨TextFile.absent, TextFile.absent⟩
    100 "USD" "EUR" true false

/-- C5: in the concrete scenario amount 100.0 USD to EUR with provider rate
0.92, the displayed result is formatted as 92.00, the command exits 0, and the
appended history record has from_amount 100 and result 92. -/
theorem C5_concrete_scenario :
    c5Run.outcome.map (fun row => row.resultStr) = Except.ok "92.00" ∧
    c5Run.exitCode = 0 ∧
    show_history_records c5Run.world.history =
      Except.ok (some [⟨"2025-01-01T00:00:00", 100, "USD", "EUR", 92⟩]) := by
  have hrate : (100 : ℚ) * (23 / 25) = 92 := by norm_num
  have hconv : CurrencyConverter.convert usdEurProvider TextFile.absent 100 "USD" "EUR" false =
      ⟨Except.ok 92, TextFile.contents (Json.obj [(pairKey "USD" "EUR", Json.num (23/25))]),
       true, true⟩ := by
    simp [CurrencyConverter.convert, usdEurProvider, pyContains, pyGetItem, pyDictGet,
      pySetItem, load_cached_rates, save_cached_rates, lookupField, dictInsert, hrate]
  have hcli : c5Run = ⟨Except.ok (display_result 100 "USD" "EUR" 92),
      ⟨TextFile.contents (Json.obj [(pairKey "USD" "EUR", Json.num (23/25))]),
       TextFile.contents (Json.arr [recToJson ⟨"2025-01-01T00:00:00", 100, "USD", "EUR", 92⟩])⟩,
      true, true, true⟩ := by
    have hU : pyUpper "USD" = "USD" := by decide
    have hE : pyUpper "EUR" = "EUR" := by decide
    have hsupU : isSupported "USD" = true := by decide
    have hsupE : isSupported "EUR" = true := by decide
    simp [c5Run, convertCommand, hU, hE, hsupU, hsupE, hconv, save_to_history]
  have hfmt : commaFixed2 92 = "92.00" := by
    have h2 : roundHalfEven ((92 : ℚ) * 100) = 9200 := by
      have h1 : ((92 : ℚ) * 100) = ((9200 : ℤ) : ℚ) := by norm_num
      rw [h1, roundHalfEven_intCast]
    simp only [commaFixed2, h2]
    decide
  refine ⟨?_, ?_, ?_⟩
  · rw [hcli]
    simp [display_result, hfmt, Except.map]
  · rw [hcli]
    rfl
  · rw [hcli]
    simp [show_history_records, decodeEntries, recFromJson_recToJson]

/-- C9: in offline mode a cached rate stored as exactly 0 for the requested
pair key is treated as if no cached rate exists: the command fails with the
no-cached-rate error and exit status 1 (the presence check uses the
truthiness of the looked-up value). -/
theorem C9_zero_cached_rate (provider : String → ProviderResponse) (now : String)
    (w : WorldState) (amount : ℚ) (from_currency to_currency : String) (save : Bool)
    (fields : List (String × Json))
    (hf : isSupported (pyUpper from_currency) = true)
    (ht : isSupported (pyUpper to_currency) = true)
    (hcache : w.cache = TextFile.contents (Json.obj fields))
    (hzero : lookupField fields (pairKey (pyUpper from_currency) (pyUpper to_currency)) =
      some (Json.num 0)) :
    (convertCommand provider now w amount from_currency to_currency save true).outcome =
      Except.error (CliError.convertFailed
        (ConvertError.noCachedRate (pyUpper from_currency) (pyUpper to_currency))) ∧
    (convertCommand provider now w amount from_currency to_currency save true).exitCode = 1 ∧
    (convertCommand provider now w amount from_currency to_currency save true).networkCalled
      = false := by
  have hne : fields ≠ [] := by
    intro h0
    rw [h0] at hzero
    simp [lookupField] at hzero
  have hconv : CurrencyConverter.convert provider w.cache amount (pyUpper from_currency)
      (pyUpper to_currency) true =
      ⟨.error (.noCachedRate (pyUpper from_currency) (pyUpper to_currency)),
       w.cache, false, true⟩ := by
    rw [hcache]
    simp [CurrencyConverter.convert, load_cached_rates, jsonTruthy, pyDictGet, hzero,
      optionTruthy, hne]
  simp [convertCommand, hf, ht, hconv, CliRun.exitCode]

/-- C9 witness: cache holding USD_EUR mapped to 0, offline USD to EUR. -/
theorem C9_zero_cached_rate_witness :
    lookupField [("USD_EUR", Json.num 0)] (pairKey (pyUpper "USD") (pyUpper "EUR")) =
      some (Json.num 0) ∧
    ((convertCommand (fun _ => ProviderResponse.requestException) ""
        ⟨TextFile.contents (Json.obj [("USD_EUR", Json.num 0)]), TextFile.absent⟩
        5 "USD" "EUR" false true).outcome =
      Except.error (CliError.convertFailed
        (ConvertError.noCachedRate (pyUpper "USD") (pyUpper "EUR"))) ∧
    (convertCommand (fun _ => ProviderResponse.requestException) ""
        ⟨TextFile.contents (Json.obj [("USD_EUR", Json.num 0)]), TextFile.absent⟩
        5 "USD" "EUR" false true).exitCode = 1 ∧
    (convertCommand (fun _ => ProviderResponse.requestException) ""
        ⟨TextFile.contents (Json.obj [("USD_EUR", Json.num 0)]), TextFile.absent⟩
        5 "USD" "EUR" false true).networkCalled = false) :=
  ⟨rfl,
   C9_zero_cached_rate (fun _ => ProviderResponse.requestException) ""
     ⟨TextFile.contents (Json.obj [("USD_EUR", Json.num 0)]), TextFile.absent⟩
     5 "USD" "EUR" false [("USD_EUR", Json.num 0)] (by decide) (by decide) rfl rfl⟩

/-- C10: the convert command is case-insensitive in its currency-code
arguments: any invocation behaves identically to the invocation with the
uppercased codes, because both codes are uppercased before the registry check
and before any further use. -/
theorem C10_case_insensitive (provider : String → ProviderResponse) (now : String)
    (w : WorldState) (amount : ℚ) (from_currency to_currency : String) (save offline : Bool) :
    convertCommand provider now w amount from_currency to_currency save offline =
      convertCommand provider now w amount (pyUpper from_currency) (pyUpper to_currency)
        save offline := by
  simp only [convertCommand, pyUpper_idem]

end CurrencyConv
